import Mathlib

/-!
Verification of the vegi vegetation-index library.

Embedding notes.  Array elements are modelled by the type Val: an exact
rational for a finite floating-point value, plus positive infinity,
negative infinity and NaN.  Arithmetic on Val follows IEEE-754 semantics
over the rationals (division by zero yields NaN or a signed infinity,
NaN propagates, NaN compares false); rounding of finite results and the
distinction between float32 and float64 precision are not modelled at
the value level, so finite arithmetic is exact.  Signed zero is not
modelled; the library only reaches a zero denominator as an exact sum of
finite values, which numpy produces as +0.0.  A band (a numpy 2D array)
is modelled as a function from an arbitrary index type into Val, so all
operands of one call automatically share a shape.  Python default
argument values are written out explicitly at every call site and noted
on each definition.  The dtype bookkeeping performed by the
inputs_to_float decorator is modelled separately by a Dtype tag, since
the rational value level cannot see precision.
-/

/-- Value of one array element: finite rational, an infinity, or NaN. -/
inductive Val : Type where
  | fin : ℚ → Val
  | inf : Val
  | ninf : Val
  | nan : Val
deriving DecidableEq

/-- Negation, IEEE style. -/
def Val.neg : Val → Val
  | .fin a => .fin (-a)
  | .inf => .ninf
  | .ninf => .inf
  | .nan => .nan

/-- Addition, IEEE style: NaN propagates, opposite infinities give NaN. -/
def Val.add : Val → Val → Val
  | .nan, _ => .nan
  | _, .nan => .nan
  | .fin a, .fin b => .fin (a + b)
  | .fin _, .inf => .inf
  | .fin _, .ninf => .ninf
  | .inf, .fin _ => .inf
  | .ninf, .fin _ => .ninf
  | .inf, .inf => .inf
  | .ninf, .ninf => .ninf
  | .inf, .ninf => .nan
  | .ninf, .inf => .nan

/-- Subtraction, IEEE style. -/
def Val.sub (a b : Val) : Val := Val.add a (Val.neg b)

/-- Multiplication, IEEE style: zero times an infinity gives NaN. -/
def Val.mul : Val → Val → Val
  | .nan, _ => .nan
  | _, .nan => .nan
  | .fin a, .fin b => .fin (a * b)
  | .fin a, .inf => if a > 0 then .inf else if a < 0 then .ninf else .nan
  | .fin a, .ninf => if a > 0 then .ninf else if a < 0 then .inf else .nan
  | .inf, .fin b => if b > 0 then .inf else if b < 0 then .ninf else .nan
  | .ninf, .fin b => if b > 0 then .ninf else if b < 0 then .inf else .nan
  | .inf, .inf => .inf
  | .inf, .ninf => .ninf
  | .ninf, .inf => .ninf
  | .ninf, .ninf => .inf

/-- Division, IEEE style: 0/0 is NaN, x/0 is a signed infinity (numpy
produces the denominator as +0.0 here, and signed zero is not modelled),
finite/infinite is 0, infinite/infinite is NaN. -/
def Val.div : Val → Val → Val
  | .nan, _ => .nan
  | _, .nan => .nan
  | .fin a, .fin b =>
      if b = 0 then (if a = 0 then .nan else if a > 0 then .inf else .ninf)
      else .fin (a / b)
  | .fin _, .inf => .fin 0
  | .fin _, .ninf => .fin 0
  | .inf, .fin b => if b < 0 then .ninf else .inf
  | .ninf, .fin b => if b < 0 then .inf else .ninf
  | .inf, .inf => .nan
  | .inf, .ninf => .nan
  | .ninf, .inf => .nan
  | .ninf, .ninf => .nan

instance : Add Val := ⟨Val.add⟩

instance : Sub Val := ⟨Val.sub⟩

instance : Mul Val := ⟨Val.mul⟩

instance : Div Val := ⟨Val.div⟩

instance : Neg Val := ⟨Val.neg⟩

/-- Test for NaN, as np.isnan. -/
def Val.isNaN : Val → Bool
  | .nan => true
  | _ => false

/-- Test for an infinity of either sign, as np.isinf. -/
def Val.isInf : Val → Bool
  | .inf => true
  | .ninf => true
  | _ => false

/-- Strict less-than, IEEE style: any comparison with NaN is false. -/
def Val.lt : Val → Val → Bool
  | .nan, _ => false
  | _, .nan => false
  | .fin a, .fin b => decide (a < b)
  | .fin _, .inf => true
  | .fin _, .ninf => false
  | .inf, _ => false
  | .ninf, .ninf => false
  | .ninf, _ => true

/-- Strict greater-than: a > b is b < a. -/
def Val.gt (a b : Val) : Bool := Val.lt b a

/-- Python float equality: NaN is unequal to everything, itself included. -/
def pyEq : Val → Val → Bool
  | .nan, _ => false
  | _, .nan => false
  | .fin a, .fin b => decide (a = b)
  | .inf, .inf => true
  | .ninf, .ninf => true
  | _, _ => false

/-- Band of pixels: one Val per index.  The index type stands for the
(shared) 2D shape of all numpy arrays in one call. -/
def Grid (ι : Type) : Type := ι → Val

/-- Embeds utils.validate: set NaN entries, then Inf entries, to value.
The Python default for value is 0. -/
def validate {ι : Type} (array : Grid ι) (value : Val) : Grid ι :=
  let a1 : Grid ι := fun i => if (array i).isNaN then value else array i
  fun i => if (a1 i).isInf then value else a1 i

/-- Embeds utils.crop_to_bounds: entries under low become low, then
entries over high become high. -/
def crop_to_bounds {ι : Type} (array : Grid ι) (low high : Val) : Grid ι :=
  let a1 : Grid ι := fun i => if (array i).lt low then low else array i
  fun i => if (a1 i).gt high then high else a1 i

/-- Embeds utils.rescale.  The bounds components are Option Val for the
Python None (the Python default for bounds is (None, None)); the skip
test low != bmin or high != bmax is Python float inequality, where any
float differs from None and NaN differs from itself. -/
def rescale {ι : Type} (array : Grid ι) (low high : Val)
    (bounds : Option Val × Option Val) : Grid ι :=
  let a1 := validate array (Val.fin 0)
  let bmin := bounds.1
  let bmax := bounds.2
  let neBmin : Bool := match bmin with
    | none => true
    | some v => ! pyEq low v
  let neBmax : Bool := match bmax with
    | none => true
    | some v => ! pyEq high v
  let a2 := if neBmin || neBmax then
      validate (fun i => (a1 i - low) / (high - low)) (Val.fin 0)
    else a1
  match bmin, bmax with
  | some bl, some bh => crop_to_bounds a2 bl bh
  | _, _ => a2

/-- Embeds vegi.ndvi (vegi/__init__.py): quotient (nir - red)/(nir + red)
passed to rescale, Python defaults low = -1.0 and high = 1.0, bounds
left at (None, None).  The inputs_to_float decorator is the identity at
the value level (dtype effects are modelled separately below). -/
def ndvi {ι : Type} (red nir : Grid ι) (low high : Val) : Grid ι :=
  rescale (fun i => (nir i - red i) / (nir i + red i)) low high (none, none)

/-- Embeds the legacy vilib.ndvi (vilib.py): quotient, sanitize, affine
transform only when low != 0.0 or high != 1.0, sanitize again.  Python
defaults low = 0.0 and high = 1.0. -/
def vilibNdvi {ι : Type} (red nir : Grid ι) (low high : Val) : Grid ι :=
  let nd : Grid ι := fun i => (nir i - red i) / (nir i + red i)
  let nd := validate nd (Val.fin 0)
  let nd := if (! pyEq low (Val.fin 0)) || (! pyEq high (Val.fin 1)) then
      (fun i => (nd i - low) / (high - low))
    else nd
  validate nd (Val.fin 0)

/-- Embeds vegi.gndvi: quotient (nir - green)/(nir + green) passed to
rescale, Python defaults low = 0.0 and high = 1.0.  This entry point
carries no inputs_to_float decorator in the source. -/
def gndvi {ι : Type} (green nir : Grid ι) (low high : Val) : Grid ι :=
  rescale (fun i => (nir i - green i) / (nir i + green i)) low high (none, none)

/-- Embeds vegi.ndwi: its body is the same arithmetic as gndvi, namely
(nir - green)/(nir + green) then rescale, although its docstring states
the negated quotient.  Python defaults low = 0.0 and high = 1.0, and no
inputs_to_float decorator in the source. -/
def ndwi {ι : Type} (green nir : Grid ι) (low high : Val) : Grid ι :=
  rescale (fun i => (nir i - green i) / (nir i + green i)) low high (none, none)

/-- Modelled from the docstring of ndwi, which states the negated
quotient: NDWI = (GREEN - NIR)/(GREEN + NIR), then the same rescale. -/
def ndwiDocumented {ι : Type} (green nir : Grid ι) (low high : Val) : Grid ι :=
  rescale (fun i => (green i - nir i) / (green i + nir i)) low high (none, none)

/-- Embeds vegi.savi: (1 + L)(nir - red) / (nir + red + L) then rescale,
Python defaults L = 0.5, low = 0.0, high = 1.0. -/
def savi {ι : Type} (red nir : Grid ι) (L low high : Val) : Grid ι :=
  rescale (fun i => ((Val.fin 1 + L) * (nir i - red i)) / (nir i + red i + L))
    low high (none, none)

/-- Embeds vegi.osavi: the source ignores its own low and high arguments
(Python defaults 0.0 and 1.0) and returns savi(red, nir, L=0.16), which
runs at the savi defaults low = 0.0 and high = 1.0. -/
def osavi {ι : Type} (red nir : Grid ι) (low high : Val) : Grid ι :=
  savi red nir (Val.fin (16/100)) (Val.fin 0) (Val.fin 1)

/-- Result of one pansharpen call.  The fields r, g, b are the returned
arrays; buf_r, buf_g, buf_b, buf_pan are the final contents of the four
caller-supplied buffers, recording which branches rebind local names to
fresh arrays and which write through to the caller arrays in place. -/
structure PanResult (ι : Type) : Type where
  r : Grid ι
  g : Grid ι
  b : Grid ι
  buf_r : Grid ι
  buf_g : Grid ι
  buf_b : Grid ι
  buf_pan : Grid ι

/-- Embeds vegi.pansharpen (identical in vilib.py up to the refactored
simple_browley expression).  Python defaults: method = "browley" and
W = 0.1.  The four source branches test the same immutable method
string, so at most one fires and an if chain in source order is
equivalent.  In the browley branch the source operators /= and *= update
the caller buffers, hence the output arrays and the final buffer
contents coincide there; the other branches rebind local names only,
leaving every caller buffer as it was.  With an unrecognized method no
branch fires and the inputs come back unchanged. -/
def pansharpen {ι : Type} (r g b pan : Grid ι)
    (method : String) (W : Val) : PanResult ι :=
  if method = "simple_browley" then
    let den : Grid ι := fun i => pan i / (r i + g i + b i)
    let r2 : Grid ι := fun i => r i * den i
    let g2 : Grid ι := fun i => g i * den i
    let b2 : Grid ι := fun i => b i * den i
    ⟨r2, g2, b2, r, g, b, pan⟩
  else if method = "sample_mean" then
    let r2 : Grid ι := fun i => Val.fin (1/2) * (r i + pan i)
    let g2 : Grid ι := fun i => Val.fin (1/2) * (g i + pan i)
    let b2 : Grid ι := fun i => Val.fin (1/2) * (b i + pan i)
    ⟨r2, g2, b2, r, g, b, pan⟩
  else if method = "esri" then
    let adj : Grid ι := fun i => pan i - (r i + g i + b i) / Val.fin 3
    let r2 : Grid ι := fun i => r i + adj i
    let g2 : Grid ι := fun i => g i + adj i
    let b2 : Grid ι := fun i => b i + adj i
    ⟨r2, g2, b2, r, g, b, pan⟩
  else if method = "browley" then
    let pan2 : Grid ι := fun i => pan i / (W * r i + W * g i + W * b i)
    let r2 : Grid ι := fun i => r i * pan2 i
    let g2 : Grid ι := fun i => g i * pan2 i
    let b2 : Grid ι := fun i => b i * pan2 i
    ⟨r2, g2, b2, r2, g2, b2, pan2⟩
  else
    ⟨r, g, b, r, g, b, pan⟩

/-- Numpy dtype tags relevant to the coercion claim. -/
inductive Dtype : Type where
  | int64 : Dtype
  | float32 : Dtype
  | float64 : Dtype
deriving DecidableEq

/-- Dtype action of np.asarray(x, dtype=np.float32) on a positional
argument inside inputs_to_float. -/
def asarrayFloat32 (_ : Dtype) : Dtype := Dtype.float32

/-- Dtype action of np.float32(v) on a keyword argument inside
inputs_to_float. -/
def float32Scalar (_ : Dtype) : Dtype := Dtype.float32

/-- Index-formula entry points of vegi/__init__.py, in source order. -/
inductive VI : Type where
  | ndvi | gndvi | ndwi | ndre | evi | evi2 | endvi | gci | arvi | savi
  | osavi | gosavi | msavi2 | tsavi | gari | tdvi | cvi | mtvi2 | sipi
  | sr | tvx | ipvi | dvi | grndvi | vndvi | gli | vari | vdvi | grvi | tgi
deriving DecidableEq

/-- Which entry points carry the inputs_to_float decorator in the
source: all of them except gndvi, ndwi and ndre. -/
def hasInputsToFloat : VI → Bool
  | .gndvi => false
  | .ndwi => false
  | .ndre => false
  | _ => true

/-- Dtype of a positional argument as seen by the body of an entry
point: coerced by inputs_to_float when the decorator is present,
otherwise passed through unchanged. -/
def viArgDtype (f : VI) (d : Dtype) : Dtype :=
  if hasInputsToFloat f then asarrayFloat32 d else d

/-- Dtype of a keyword argument as seen by the body of an entry point. -/
def viKwargDtype (f : VI) (d : Dtype) : Dtype :=
  if hasInputsToFloat f then float32Scalar d else d

lemma fin_add_fin (a b : ℚ) : Val.fin a + Val.fin b = Val.fin (a + b) := rfl

lemma fin_mul_fin (a b : ℚ) : Val.fin a * Val.fin b = Val.fin (a * b) := rfl

lemma fin_sub_fin (a b : ℚ) : Val.fin a - Val.fin b = Val.fin (a - b) := by
  show Val.sub _ _ = _
  simp [Val.sub, Val.add, Val.neg, sub_eq_add_neg]

lemma fin_div_fin (a b : ℚ) (hb : b ≠ 0) :
    Val.fin a / Val.fin b = Val.fin (a / b) := by
  show Val.div _ _ = _
  simp [Val.div, hb]

lemma fin_div_fin_zero (a : ℚ) :
    Val.fin a / Val.fin 0 =
      (if a = 0 then Val.nan else if a > 0 then Val.inf else Val.ninf) := by
  show Val.div _ _ = _
  simp [Val.div]

/-- Sanitization always produces a finite element. -/
lemma validate_fin {ι : Type} (x : Grid ι) (i : ι) :
    ∃ q : ℚ, validate x (Val.fin 0) i = Val.fin q := by
  unfold validate
  cases h : x i <;> simp [h, Val.isNaN, Val.isInf]

/-- Clipping a finite element with finite ordered bounds lands in the
bound interval. -/
lemma crop_to_bounds_mem {ι : Type} (a : Grid ι) (lo hi : ℚ) (hlohi : lo ≤ hi)
    (i : ι) (hfin : ∃ q : ℚ, a i = Val.fin q) :
    ∃ q : ℚ, crop_to_bounds a (Val.fin lo) (Val.fin hi) i = Val.fin q ∧
      lo ≤ q ∧ q ≤ hi := by
  obtain ⟨q, hq⟩ := hfin
  simp only [crop_to_bounds, Val.gt, hq]
  split_ifs with h1 h2 h2
  · exact ⟨hi, rfl, hlohi, le_refl hi⟩
  · exact ⟨lo, rfl, le_refl lo, hlohi⟩
  · exact ⟨hi, rfl, hlohi, le_refl hi⟩
  · simp only [Val.lt, decide_eq_true_eq] at h1 h2
    exact ⟨q, rfl, by linarith, by linarith⟩

/-- Grid of the literal 2x2 array [[10, 20], [30, 40]], indexed by
(row, column) booleans. -/
def c2red : Grid (Bool × Bool) := fun p =>
  match p with
  | (false, false) => Val.fin 10
  | (false, true) => Val.fin 20
  | (true, false) => Val.fin 30
  | (true, true) => Val.fin 40

/-- Grid of the literal 2x2 array [[40, 30], [20, 10]]. -/
def c2nir : Grid (Bool × Bool) := fun p =>
  match p with
  | (false, false) => Val.fin 40
  | (false, true) => Val.fin 30
  | (true, false) => Val.fin 20
  | (true, true) => Val.fin 10

/-- C1: at a pixel with nir + red == 0 (here the black pixel red = nir
= 0), vegi.ndvi at its default low -1.0 and high 1.0 does NOT return 0:
the division yields NaN, validate turns it into 0, but the affine step
(array - low)/(high - low) always runs (bounds is (None, None), which
never equals a float), mapping it to 1/2.  The legacy vilib.py ndvi,
whose skip test compares low and high against 0.0 and 1.0, returns
exactly 0 there, which is what the claim and the spec state. -/
theorem C1_ndvi_zero_denominator_pixel :
    ndvi (fun _ : Unit => Val.fin 0) (fun _ : Unit => Val.fin 0)
        (Val.fin (-1)) (Val.fin 1) () = Val.fin (1/2) ∧
    vilibNdvi (fun _ : Unit => Val.fin 0) (fun _ : Unit => Val.fin 0)
        (Val.fin 0) (Val.fin 1) () = Val.fin 0 := by
  constructor <;>
    norm_num [ndvi, vilibNdvi, rescale, validate, pyEq, fin_sub_fin,
      fin_add_fin, fin_div_fin, fin_div_fin_zero, Val.isNaN, Val.isInf]

/-- C2: on red = [[10,20],[30,40]] and nir = [[40,30],[20,10]] at the
defaults, vegi.ndvi returns [[0.8,0.6],[0.4,0.2]], the elementwise
quotients shifted by the always-running affine step (q+1)/2, NOT the
claimed raw quotients; the legacy vilib.py ndvi returns exactly the
claimed [[0.6,0.2],[-0.2,-0.6]]. -/
theorem C2_ndvi_end_to_end :
    (∀ p, ndvi c2red c2nir (Val.fin (-1)) (Val.fin 1) p =
      (match p with
       | (false, false) => Val.fin (8/10)
       | (false, true) => Val.fin (6/10)
       | (true, false) => Val.fin (4/10)
       | (true, true) => Val.fin (2/10))) ∧
    (∀ p, vilibNdvi c2red c2nir (Val.fin 0) (Val.fin 1) p =
      (match p with
       | (false, false) => Val.fin (6/10)
       | (false, true) => Val.fin (2/10)
       | (true, false) => Val.fin (-(2/10))
       | (true, true) => Val.fin (-(6/10)))) := by
  constructor <;> intro p <;> obtain ⟨x, y⟩ := p <;> cases x <;> cases y <;>
    norm_num [ndvi, vilibNdvi, rescale, validate, pyEq, c2red, c2nir,
      fin_sub_fin, fin_add_fin, fin_div_fin, Val.isNaN, Val.isInf]

/-- C3 counterexample: with x = [5], low = 0, high = 1 and bounds
(0, 1), rescale is not Sanitize alone: the skip branch triggers but the
clipping step still runs and turns 5 into 1. -/
theorem C3_rescale_identity_cex :
    rescale (fun _ : Unit => Val.fin 5) (Val.fin 0) (Val.fin 1)
        (some (Val.fin 0), some (Val.fin 1)) ≠
      validate (fun _ : Unit => Val.fin 5) (Val.fin 0) := by
  intro h
  have h0 := congrFun h ()
  norm_num [rescale, validate, crop_to_bounds, pyEq, Val.isNaN, Val.isInf,
    Val.lt, Val.gt] at h0

/-- C3 amended: rescale(x, low, high, bounds=(low, high)) skips the
affine transform (the no-op branch triggers) but still clips, so it
equals crop_to_bounds(Sanitize(x), low, high), not Sanitize(x) alone. -/
theorem C3_rescale_identity_amended : ∀ (ι : Type) (x : Grid ι) (low high : ℚ),
    rescale x (Val.fin low) (Val.fin high)
        (some (Val.fin low), some (Val.fin high)) =
      crop_to_bounds (validate x (Val.fin 0)) (Val.fin low) (Val.fin high) := by
  intro ι x low high
  simp [rescale, pyEq]

/-- C4 counterexample: gndvi carries no inputs_to_float decorator, so an
int64 positional argument reaches the formula arithmetic unconverted,
refuting the claim that every index-formula entry point converts its
arguments to float32. -/
theorem C4_inputs_to_float_cex :
    ¬ (∀ (f : VI) (d : Dtype), viArgDtype f d = Dtype.float32) := by
  intro h
  have h0 := h VI.gndvi Dtype.int64
  simp [viArgDtype, hasInputsToFloat] at h0

/-- C4 amended: every index-formula entry point that carries the
inputs_to_float decorator (all except gndvi, ndwi and ndre) sees each
positional argument converted elementwise to float32 and each keyword
parameter converted to a float32 scalar before its arithmetic runs. -/
theorem C4_inputs_to_float_amended : ∀ (f : VI) (d : Dtype),
    hasInputsToFloat f = true →
    viArgDtype f d = Dtype.float32 ∧ viKwargDtype f d = Dtype.float32 := by
  intro f d h
  simp [viArgDtype, viKwargDtype, h, asarrayFloat32, float32Scalar]

/-- C4 witness: ndvi carries the decorator and coerces an int64
argument and keyword to float32. -/
theorem C4_inputs_to_float_witness :
    hasInputsToFloat VI.ndvi = true ∧
    (viArgDtype VI.ndvi Dtype.int64 = Dtype.float32 ∧
     viKwargDtype VI.ndvi Dtype.int64 = Dtype.float32) :=
  ⟨rfl, C4_inputs_to_float_amended VI.ndvi Dtype.int64 rfl⟩

/-- C5: browley pansharpening returns each channel multiplied by
pan / (W*r + W*g + W*b), and with W = 0.1 and all four bands the
nonzero constant c every element of every returned channel is
c / 0.3. -/
theorem C5_pansharpen_browley :
    (∀ (ι : Type) (r g b pan : Grid ι) (W : Val),
      (pansharpen r g b pan "browley" W).r =
        (fun i => r i * (pan i / (W * r i + W * g i + W * b i))) ∧
      (pansharpen r g b pan "browley" W).g =
        (fun i => g i * (pan i / (W * r i + W * g i + W * b i))) ∧
      (pansharpen r g b pan "browley" W).b =
        (fun i => b i * (pan i / (W * r i + W * g i + W * b i)))) ∧
    (∀ (ι : Type) (c : ℚ), c ≠ 0 → ∀ i : ι,
      (pansharpen (fun _ => Val.fin c) (fun _ => Val.fin c)
        (fun _ => Val.fin c) (fun _ => Val.fin c) "browley"
        (Val.fin (1/10))).r i = Val.fin (c / (3/10)) ∧
      (pansharpen (fun _ => Val.fin c) (fun _ => Val.fin c)
        (fun _ => Val.fin c) (fun _ => Val.fin c) "browley"
        (Val.fin (1/10))).g i = Val.fin (c / (3/10)) ∧
      (pansharpen (fun _ => Val.fin c) (fun _ => Val.fin c)
        (fun _ => Val.fin c) (fun _ => Val.fin c) "browley"
        (Val.fin (1/10))).b i = Val.fin (c / (3/10))) := by
  constructor
  · intro ι r g b pan W
    exact ⟨rfl, rfl, rfl⟩
  · intro ι c hc i
    have hden : (1/10 * c + 1/10 * c + 1/10 * c : ℚ) ≠ 0 := by
      intro h
      apply hc
      linarith
    have key : Val.fin c * (Val.fin c / (Val.fin (1/10) * Val.fin c +
        Val.fin (1/10) * Val.fin c + Val.fin (1/10) * Val.fin c)) =
        Val.fin (c / (3/10)) := by
      rw [fin_mul_fin, fin_add_fin, fin_add_fin, fin_div_fin _ _ hden,
        fin_mul_fin]
      congr 1
      rw [show (1/10 * c + 1/10 * c + 1/10 * c : ℚ) = 3/10 * c by ring,
        div_mul_eq_div_div_swap, div_self hc, mul_one_div]
    exact ⟨key, key, key⟩

/-- C5 witness: concrete instance with c = 10 on a single-pixel grid. -/
theorem C5_pansharpen_browley_witness :
    (10 : ℚ) ≠ 0 ∧
    ((pansharpen (fun _ : Unit => Val.fin 10) (fun _ => Val.fin 10)
      (fun _ => Val.fin 10) (fun _ => Val.fin 10) "browley"
      (Val.fin (1/10))).r () = Val.fin ((10 : ℚ) / (3/10)) ∧
    (pansharpen (fun _ : Unit => Val.fin 10) (fun _ => Val.fin 10)
      (fun _ => Val.fin 10) (fun _ => Val.fin 10) "browley"
      (Val.fin (1/10))).g () = Val.fin ((10 : ℚ) / (3/10)) ∧
    (pansharpen (fun _ : Unit => Val.fin 10) (fun _ => Val.fin 10)
      (fun _ => Val.fin 10) (fun _ => Val.fin 10) "browley"
      (Val.fin (1/10))).b () = Val.fin ((10 : ℚ) / (3/10))) :=
  ⟨by norm_num, C5_pansharpen_browley.2 Unit 10 (by norm_num) ()⟩

/-- C6: the browley branch writes through to the caller buffers (the
final buffer contents equal the returned arrays, and at a concrete input
they differ from the originals), while simple_browley, sample_mean and
esri leave all four caller buffers unmodified for every input. -/
theorem C6_pansharpen_mutation :
    (∀ (ι : Type) (r g b pan : Grid ι) (W : Val),
      ((pansharpen r g b pan "simple_browley" W).buf_r = r ∧
       (pansharpen r g b pan "simple_browley" W).buf_g = g ∧
       (pansharpen r g b pan "simple_browley" W).buf_b = b ∧
       (pansharpen r g b pan "simple_browley" W).buf_pan = pan) ∧
      ((pansharpen r g b pan "sample_mean" W).buf_r = r ∧
       (pansharpen r g b pan "sample_mean" W).buf_g = g ∧
       (pansharpen r g b pan "sample_mean" W).buf_b = b ∧
       (pansharpen r g b pan "sample_mean" W).buf_pan = pan) ∧
      ((pansharpen r g b pan "esri" W).buf_r = r ∧
       (pansharpen r g b pan "esri" W).buf_g = g ∧
       (pansharpen r g b pan "esri" W).buf_b = b ∧
       (pansharpen r g b pan "esri" W).buf_pan = pan) ∧
      ((pansharpen r g b pan "browley" W).buf_r =
         (pansharpen r g b pan "browley" W).r ∧
       (pansharpen r g b pan "browley" W).buf_g =
         (pansharpen r g b pan "browley" W).g ∧
       (pansharpen r g b pan "browley" W).buf_b =
         (pansharpen r g b pan "browley" W).b ∧
       (pansharpen r g b pan "browley" W).buf_pan =
         (fun i => pan i / (W * r i + W * g i + W * b i)))) ∧
    ((pansharpen (fun _ : Unit => Val.fin 10) (fun _ => Val.fin 10)
        (fun _ => Val.fin 10) (fun _ => Val.fin 10) "browley"
        (Val.fin (1/10))).buf_r ≠ (fun _ : Unit => Val.fin 10) ∧
     (pansharpen (fun _ : Unit => Val.fin 10) (fun _ => Val.fin 10)
        (fun _ => Val.fin 10) (fun _ => Val.fin 10) "browley"
        (Val.fin (1/10))).buf_g ≠ (fun _ : Unit => Val.fin 10) ∧
     (pansharpen (fun _ : Unit => Val.fin 10) (fun _ => Val.fin 10)
        (fun _ => Val.fin 10) (fun _ => Val.fin 10) "browley"
        (Val.fin (1/10))).buf_b ≠ (fun _ : Unit => Val.fin 10) ∧
     (pansharpen (fun _ : Unit => Val.fin 10) (fun _ => Val.fin 10)
        (fun _ => Val.fin 10) (fun _ => Val.fin 10) "browley"
        (Val.fin (1/10))).buf_pan ≠ (fun _ : Unit => Val.fin 10)) := by
  constructor
  · intro ι r g b pan W
    exact ⟨⟨rfl, rfl, rfl, rfl⟩, ⟨rfl, rfl, rfl, rfl⟩, ⟨rfl, rfl, rfl, rfl⟩,
      ⟨rfl, rfl, rfl, rfl⟩⟩
  · refine ⟨fun h => ?_, fun h => ?_, fun h => ?_, fun h => ?_⟩ <;>
    · first
      | (have h0 : Val.fin 10 * (Val.fin 10 / (Val.fin (1/10) * Val.fin 10 +
            Val.fin (1/10) * Val.fin 10 + Val.fin (1/10) * Val.fin 10)) =
            Val.fin 10 := congrFun h ()
         norm_num [fin_mul_fin, fin_add_fin, fin_div_fin] at h0)
      | (have h0 : Val.fin 10 / (Val.fin (1/10) * Val.fin 10 +
            Val.fin (1/10) * Val.fin 10 + Val.fin (1/10) * Val.fin 10) =
            Val.fin 10 := congrFun h ()
         norm_num [fin_mul_fin, fin_add_fin, fin_div_fin] at h0)

/-- C7: pansharpen with a method string that is none of the four known
identifiers performs no fusion: it returns r, g, b unchanged and leaves
every caller buffer as it was. -/
theorem C7_pansharpen_unknown_method :
    ∀ (ι : Type) (r g b pan : Grid ι) (method : String) (W : Val),
    method ≠ "simple_browley" → method ≠ "sample_mean" → method ≠ "esri" →
    method ≠ "browley" →
    (pansharpen r g b pan method W).r = r ∧
    (pansharpen r g b pan method W).g = g ∧
    (pansharpen r g b pan method W).b = b ∧
    (pansharpen r g b pan method W).buf_r = r ∧
    (pansharpen r g b pan method W).buf_g = g ∧
    (pansharpen r g b pan method W).buf_b = b ∧
    (pansharpen r g b pan method W).buf_pan = pan := by
  intro ι r g b pan method W h1 h2 h3 h4
  simp [pansharpen, h1, h2, h3, h4]

/-- C7 witness: concrete unknown method string on single-pixel grids. -/
theorem C7_pansharpen_unknown_method_witness :
    (("bicubic" : String) ≠ "simple_browley" ∧
     ("bicubic" : String) ≠ "sample_mean" ∧
     ("bicubic" : String) ≠ "esri" ∧
     ("bicubic" : String) ≠ "browley") ∧
    ((pansharpen (fun _ : Unit => Val.fin 1) (fun _ => Val.fin 2)
        (fun _ => Val.fin 3) (fun _ => Val.fin 4) "bicubic"
        (Val.fin (1/10))).r = (fun _ : Unit => Val.fin 1) ∧
     (pansharpen (fun _ : Unit => Val.fin 1) (fun _ => Val.fin 2)
        (fun _ => Val.fin 3) (fun _ => Val.fin 4) "bicubic"
        (Val.fin (1/10))).g = (fun _ : Unit => Val.fin 2) ∧
     (pansharpen (fun _ : Unit => Val.fin 1) (fun _ => Val.fin 2)
        (fun _ => Val.fin 3) (fun _ => Val.fin 4) "bicubic"
        (Val.fin (1/10))).b = (fun _ : Unit => Val.fin 3) ∧
     (pansharpen (fun _ : Unit => Val.fin 1) (fun _ => Val.fin 2)
        (fun _ => Val.fin 3) (fun _ => Val.fin 4) "bicubic"
        (Val.fin (1/10))).buf_r = (fun _ : Unit => Val.fin 1) ∧
     (pansharpen (fun _ : Unit => Val.fin 1) (fun _ => Val.fin 2)
        (fun _ => Val.fin 3) (fun _ => Val.fin 4) "bicubic"
        (Val.fin (1/10))).buf_g = (fun _ : Unit => Val.fin 2) ∧
     (pansharpen (fun _ : Unit => Val.fin 1) (fun _ => Val.fin 2)
        (fun _ => Val.fin 3) (fun _ => Val.fin 4) "bicubic"
        (Val.fin (1/10))).buf_b = (fun _ : Unit => Val.fin 3) ∧
     (pansharpen (fun _ : Unit => Val.fin 1) (fun _ => Val.fin 2)
        (fun _ => Val.fin 3) (fun _ => Val.fin 4) "bicubic"
        (Val.fin (1/10))).buf_pan = (fun _ : Unit => Val.fin 4)) :=
  ⟨⟨by decide, by decide, by decide, by decide⟩,
   C7_pansharpen_unknown_method Unit _ _ _ _ "bicubic" _
     (by decide) (by decide) (by decide) (by decide)⟩

/-- C8 counterexample: with bounds lo = 1 and hi = 0 (both non-null) the
output element is 0 and fails lo <= element: the claim quantifies over
every non-null bounds pair and is false for a reversed pair. -/
theorem C8_rescale_bounds_cex :
    ¬ (∀ i : Unit, ∃ q : ℚ,
      rescale (fun _ : Unit => Val.fin 0) (Val.fin 0) (Val.fin 1)
          (some (Val.fin 1), some (Val.fin 0)) i = Val.fin q ∧
      1 ≤ q ∧ q ≤ 0) := by
  intro h
  obtain ⟨q, hq, h1, h0⟩ := h ()
  have he : rescale (fun _ : Unit => Val.fin 0) (Val.fin 0) (Val.fin 1)
      (some (Val.fin 1), some (Val.fin 0)) () = Val.fin 0 := by
    norm_num [rescale, validate, crop_to_bounds, pyEq, Val.isNaN, Val.isInf,
      Val.lt, Val.gt, fin_sub_fin, fin_add_fin, fin_div_fin]
  rw [he] at hq
  injection hq with hq0
  linarith

/-- C8 amended: for finite low, high and an ordered non-null bounds pair
lo <= hi, every element of rescale(x, low, high, bounds=(lo, hi)) is a
finite value q with lo <= q <= hi. -/
theorem C8_rescale_bounds_clips :
    ∀ (ι : Type) (x : Grid ι) (low high lo hi : ℚ), high ≠ low → lo ≤ hi →
    ∀ i, ∃ q : ℚ,
      rescale x (Val.fin low) (Val.fin high)
          (some (Val.fin lo), some (Val.fin hi)) i = Val.fin q ∧
      lo ≤ q ∧ q ≤ hi := by
  intro ι x low high lo hi hne hlh i
  have hres : rescale x (Val.fin low) (Val.fin high)
      (some (Val.fin lo), some (Val.fin hi)) =
      crop_to_bounds
        (if (! pyEq (Val.fin low) (Val.fin lo) ||
             ! pyEq (Val.fin high) (Val.fin hi)) then
          validate (fun j => (validate x (Val.fin 0) j - Val.fin low) /
            (Val.fin high - Val.fin low)) (Val.fin 0)
        else validate x (Val.fin 0)) (Val.fin lo) (Val.fin hi) := rfl
  rw [hres]
  refine crop_to_bounds_mem _ lo hi hlh i ?_
  by_cases hb : (! pyEq (Val.fin low) (Val.fin lo) ||
      ! pyEq (Val.fin high) (Val.fin hi)) = true
  · rw [if_pos hb]
    exact validate_fin _ i
  · rw [if_neg hb]
    exact validate_fin _ i

/-- C8 witness: x = [5] with low 0, high 1, bounds (0, 1). -/
theorem C8_rescale_bounds_clips_witness :
    (1 : ℚ) ≠ 0 ∧ (0 : ℚ) ≤ 1 ∧
    ∃ q : ℚ, rescale (fun _ : Unit => Val.fin 5) (Val.fin 0) (Val.fin 1)
        (some (Val.fin 0), some (Val.fin 1)) () = Val.fin q ∧
      0 ≤ q ∧ q ≤ 1 :=
  ⟨by norm_num, by norm_num,
   C8_rescale_bounds_clips Unit (fun _ => Val.fin 5) 0 1 0 1 (by norm_num)
     (by norm_num) ()⟩

/-- C9: osavi at its defaults is exactly savi with L = 0.16 at the savi
defaults low 0.0 and high 1.0, and both are the rescaled savi formula
with L = 0.16. -/
theorem C9_osavi_is_savi_016 : ∀ (ι : Type) (red nir : Grid ι),
    osavi red nir (Val.fin 0) (Val.fin 1) =
      savi red nir (Val.fin (16/100)) (Val.fin 0) (Val.fin 1) ∧
    osavi red nir (Val.fin 0) (Val.fin 1) =
      rescale (fun i => ((Val.fin 1 + Val.fin (16/100)) * (nir i - red i)) /
        (nir i + red i + Val.fin (16/100))) (Val.fin 0) (Val.fin 1)
        (none, none) :=
  fun ι red nir => ⟨rfl, rfl⟩

/-- C10: ndwi and gndvi are the same function for every input and every
low and high; both compute (nir - green)/(nir + green) then rescale,
which differs from what the ndwi docstring (the negated quotient) would
give, witnessed at green = 1, nir = 3. -/
theorem C10_ndwi_equals_gndvi :
    (∀ (ι : Type) (green nir : Grid ι) (low high : Val),
      ndwi green nir low high = gndvi green nir low high ∧
      ndwi green nir low high =
        rescale (fun i => (nir i - green i) / (nir i + green i)) low high
          (none, none)) ∧
    ndwi (fun _ : Unit => Val.fin 1) (fun _ : Unit => Val.fin 3)
        (Val.fin 0) (Val.fin 1) ≠
      ndwiDocumented (fun _ : Unit => Val.fin 1) (fun _ : Unit => Val.fin 3)
        (Val.fin 0) (Val.fin 1) := by
  refine ⟨fun ι green nir low high => ⟨rfl, rfl⟩, fun h => ?_⟩
  have h0 := congrFun h ()
  have hL : ndwi (fun _ : Unit => Val.fin 1) (fun _ : Unit => Val.fin 3)
      (Val.fin 0) (Val.fin 1) () = Val.fin (1/2) := by
    norm_num [ndwi, rescale, validate, pyEq, fin_sub_fin, fin_add_fin,
      fin_div_fin, Val.isNaN, Val.isInf]
  have hR : ndwiDocumented (fun _ : Unit => Val.fin 1)
      (fun _ : Unit => Val.fin 3) (Val.fin 0) (Val.fin 1) () =
      Val.fin (-(1/2)) := by
    norm_num [ndwiDocumented, rescale, validate, pyEq, fin_sub_fin,
      fin_add_fin, fin_div_fin, Val.isNaN, Val.isInf]
  rw [hL, hR] at h0
  norm_num at h0
